import Mathlib

/-!
Verification of the OAuth provider / relay-proxy repository.

The development shallowly embeds the two Go components the claims are about:

* `src/backend/controllers/oauth_controller.go` — the database-backed OAuth
  provider (consent, token exchange, userinfo).  The GORM-backed store is
  modelled as lists of records inside a `ServerState`; `time.Now()` is an
  explicit `Nat` parameter (seconds); the cryptographically random tokens
  produced by `utils.GenerateRandomToken` are explicit parameters (the
  generator is an external collaborator assumed to succeed).  Each handler
  additionally returns the list of store operations it performed, so that
  "before any store access" / "no store write" claims are statable.
* `src/main.go` — the eBay relay (authorize / callback / token / proxy).
  The in-process `stateStore` map is modelled as an association list with
  Go-map semantics (insert overwrites, delete removes); `json.Unmarshal` /
  `json.Marshal` outcomes are modelled with a small JSON value type whose
  serializer mirrors Go's sorted-key object marshalling (string escaping and
  non-ASCII byte lengths are not modelled; every value in the claims is
  plain ASCII without escapes).
-/

/-- OAuth error vocabulary returned by the provider endpoints
(`oauth_controller.go`): the JSON `error` field of each failure response. -/
inductive OAuthErr where
  | invalidRequest
  | invalidClient
  | invalidGrant
  | unsupportedGrantType
  | serverError
  | invalidToken
  deriving DecidableEq, Repr

/-- Successful token-endpoint response body.  `refreshToken = none` models the
absence of the `refresh_token` field (the refresh grant omits it). -/
structure TokenSuccessBody where
  accessToken : String
  tokenType : String
  expiresIn : Nat
  refreshToken : Option String
  scope : String
  deriving DecidableEq, Repr

/-- Outcome of the token endpoint: a success body or an OAuth error. -/
inductive TokenResult where
  | success (body : TokenSuccessBody)
  | error (e : OAuthErr)
  deriving DecidableEq, Repr

/-- Store operations performed by a handler, in order: reads (`First`) and
writes (`Create` / `Update`) against the GORM database. -/
inductive StoreOp where
  | clientRead
  | codeRead
  | codeWrite
  | accessTokenWrite
  | refreshTokenWrite
  | refreshTokenRead
  deriving DecidableEq, Repr

/-- Row of the `oauth_clients` table (`models.OAuthClient`).  The JSON-encoded
`RedirectURIs` column is modelled directly as the decoded list. -/
structure OAuthClient where
  id : String
  clientSecret : String
  name : String
  redirectURIs : List String
  deriving DecidableEq, Repr

/-- Row of the `oauth_authorization_codes` table
(`models.OAuthAuthorizationCode`). -/
structure AuthCode where
  code : String
  clientID : String
  userID : Nat
  redirectURI : String
  scope : String
  expiresAt : Nat
  used : Bool
  deriving DecidableEq, Repr

/-- Row of the `oauth_access_tokens` table (`models.OAuthAccessToken`). -/
structure AccessTokenRec where
  token : String
  clientID : String
  userID : Nat
  scope : String
  expiresAt : Nat
  deriving DecidableEq, Repr

/-- Row of the `oauth_refresh_tokens` table (`models.OAuthRefreshToken`). -/
structure RefreshTokenRec where
  token : String
  clientID : String
  userID : Nat
  scope : String
  expiresAt : Nat
  deriving DecidableEq, Repr

/-- The persisted store: the four tables the OAuth controller touches. -/
structure ServerState where
  clients : List OAuthClient
  authCodes : List AuthCode
  accessTokens : List AccessTokenRec
  refreshTokens : List RefreshTokenRec
  deriving DecidableEq, Repr

/-- The `WHERE code = ? AND client_id = ? AND redirect_uri = ? AND used = ?
AND expires_at > ?` condition of `handleAuthorizationCodeGrant`. -/
def codeQuery (code clientID redirectURI : String) (now : Nat)
    (r : AuthCode) : Bool :=
  r.code == code && r.clientID == clientID && r.redirectURI == redirectURI
    && r.used == false && decide (now < r.expiresAt)

/-- The gorm `First` on the authorization-code query: the first matching row. -/
def lookupAuthCode (s : ServerState) (now : Nat)
    (code clientID redirectURI : String) : Option AuthCode :=
  s.authCodes.find? (codeQuery code clientID redirectURI now)

/-- The `database.DB.Model(&authCode).Update("used", true)` step: the found
row is updated by primary key; `code` carries a unique index, so this is the
first (hence only) row with that code. -/
def markUsedByCode (code : String) : List AuthCode → List AuthCode
  | [] => []
  | r :: rs =>
    if r.code == code then { r with used := true } :: rs
    else r :: markUsedByCode code rs

/-- The write phase of the authorization-code grant, run after the lookup
found row `a`: mark the code used and `Create` the two token rows (1-hour
access token, 30-day refresh token, both inheriting the code's scope and
subject). -/
def commitCodeExchange (s : ServerState) (now : Nat) (clientID : String)
    (a : AuthCode) (newAT newRT : String) : ServerState :=
  { s with
    authCodes := markUsedByCode a.code s.authCodes
    accessTokens :=
      ⟨newAT, clientID, a.userID, a.scope, now + 3600⟩ :: s.accessTokens
    refreshTokens :=
      ⟨newRT, clientID, a.userID, a.scope, now + 2592000⟩ :: s.refreshTokens }

/-- The `authorization_code` grant handler (`handleAuthorizationCodeGrant`):
a read (`First`) of the code row, then — on a hit — the unconditional write
phase and the success response; on a miss, `invalid_grant` with no write. -/
def handleAuthorizationCodeGrant (s : ServerState) (now : Nat)
    (code redirectURI clientID : String) (newAT newRT : String) :
    TokenResult × ServerState × List StoreOp :=
  match lookupAuthCode s now code clientID redirectURI with
  | none => (.error .invalidGrant, s, [.codeRead])
  | some a =>
    (.success ⟨newAT, "Bearer", 3600, some newRT, a.scope⟩,
     commitCodeExchange s now clientID a newAT newRT,
     [.codeRead, .codeWrite, .accessTokenWrite, .refreshTokenWrite])

/-- The `WHERE token = ? AND client_id = ? AND expires_at > ?` condition of
`handleRefreshTokenGrant`. -/
def refreshQuery (token clientID : String) (now : Nat)
    (r : RefreshTokenRec) : Bool :=
  r.token == token && r.clientID == clientID && decide (now < r.expiresAt)

/-- The gorm `First` on the refresh-token query. -/
def lookupRefreshToken (s : ServerState) (now : Nat)
    (token clientID : String) : Option RefreshTokenRec :=
  s.refreshTokens.find? (refreshQuery token clientID now)

/-- The `refresh_token` grant handler (`handleRefreshTokenGrant`): on a hit it
mints one new access token with the refresh record's scope and subject and
responds without a `refresh_token` field; the refresh-token table is not
written. -/
def handleRefreshTokenGrant (s : ServerState) (now : Nat)
    (refreshToken clientID : String) (newAT : String) :
    TokenResult × ServerState × List StoreOp :=
  match lookupRefreshToken s now refreshToken clientID with
  | none => (.error .invalidGrant, s, [.refreshTokenRead])
  | some rt =>
    (.success ⟨newAT, "Bearer", 3600, none, rt.scope⟩,
     { s with accessTokens :=
        ⟨newAT, clientID, rt.userID, rt.scope, now + 3600⟩
          :: s.accessTokens },
     [.refreshTokenRead, .accessTokenWrite])

/-- Form fields of a `POST /oauth/token` request; a missing form field binds
to the empty string in Go. -/
structure TokenReq where
  grantType : String
  code : String
  redirectURI : String
  clientID : String
  clientSecret : String
  refreshToken : String
  deriving DecidableEq, Repr

/-- The client-credential check of `Token`: `WHERE id = ? AND client_secret
= ?` followed by `First`. -/
def findClient (s : ServerState) (clientID clientSecret : String) :
    Option OAuthClient :=
  s.clients.find? (fun cl => cl.id == clientID && cl.clientSecret == clientSecret)

/-- The `POST /oauth/token` endpoint (`Token`): `ShouldBind` rejects a missing
`grant_type`, `client_id` or `client_secret` (`binding:"required"`) with
`invalid_request` before any store access; then client authentication
(`invalid_client` on failure); then the `grant_type` switch.  `code` and
`refresh_token` carry no `required` binding. -/
def tokenEndpoint (s : ServerState) (now : Nat) (req : TokenReq)
    (newAT newRT : String) : TokenResult × ServerState × List StoreOp :=
  if req.grantType = "" ∨ req.clientID = "" ∨ req.clientSecret = "" then
    (.error .invalidRequest, s, [])
  else
    match findClient s req.clientID req.clientSecret with
    | none => (.error .invalidClient, s, [.clientRead])
    | some _ =>
      match req.grantType with
      | "authorization_code" =>
        let (r, s', ops) :=
          handleAuthorizationCodeGrant s now req.code req.redirectURI
            req.clientID newAT newRT
        (r, s', .clientRead :: ops)
      | "refresh_token" =>
        let (r, s', ops) :=
          handleRefreshTokenGrant s now req.refreshToken req.clientID newAT
        (r, s', .clientRead :: ops)
      | _ => (.error .unsupportedGrantType, s, [.clientRead])

/-- Body of a `POST /oauth/authorize/consent` request. -/
structure ConsentReq where
  clientID : String
  redirectURI : String
  scope : String
  state : String
  approved : Bool
  deriving DecidableEq, Repr

/-- Outcome of the consent endpoint: the `redirect_url` JSON response or an
error status. -/
inductive ConsentResult where
  | redirectURL (url : String)
  | badRequest
  deriving DecidableEq, Repr

/-- The consent endpoint (`AuthorizeConsent`) for an authenticated subject
`userID`: `ShouldBindJSON` requires `client_id` and `redirect_uri`; denial
returns the `access_denied` redirect with no store access; approval persists
an `AuthorizationCode` row with a 10-minute expiry and `used = false` and
returns the code redirect (state segment omitted when the state is empty).
The freshly generated random code is the parameter `newCode`. -/
def authorizeConsent (s : ServerState) (now : Nat) (userID : Nat)
    (req : ConsentReq) (newCode : String) :
    ConsentResult × ServerState × List StoreOp :=
  if req.clientID = "" ∨ req.redirectURI = "" then (.badRequest, s, [])
  else if !req.approved then
    (.redirectURL (req.redirectURI ++ "?error=access_denied&state=" ++ req.state),
     s, [])
  else
    let row : AuthCode :=
      ⟨newCode, req.clientID, userID, req.redirectURI, req.scope,
       now + 600, false⟩
    (.redirectURL (req.redirectURI ++ "?code=" ++ newCode ++
       (if req.state ≠ "" then "&state=" ++ req.state else "")),
     { s with authCodes := row :: s.authCodes }, [.codeWrite])

/-- Split a character list at every occurrence of the separator character,
keeping empty segments — the semantics of Go's `strings.Split` for a
one-character separator (every separator in the relay and controller is a
single character: space, `&`, `=`, `?`). -/
def splitOnChar (c : Char) : List Char → List (List Char)
  | [] => [[]]
  | x :: xs =>
    if x = c then [] :: splitOnChar c xs
    else
      match splitOnChar c xs with
      | [] => [[x]]
      | g :: gs => (x :: g) :: gs

/-- String-level `strings.Split` for a one-character separator. -/
def strSplitOnChar (s : String) (c : Char) : List String :=
  (splitOnChar c s.data).map String.mk

/-- ASCII lower-casing of one character (`strings.ToLower` restricted to
ASCII; every scheme string compared in the code is ASCII). -/
def charToLower (c : Char) : Char :=
  if 'A' ≤ c ∧ c ≤ 'Z' then Char.ofNat (c.toNat + 32) else c

/-- ASCII `strings.ToLower`. -/
def strToLower (s : String) : String :=
  String.mk (s.data.map charToLower)

/-- Outcome of extracting the bearer token in `UserInfo`. -/
inductive TokenExtract where
  | ok (token : String)
  | err (e : OAuthErr)
  deriving DecidableEq, Repr

/-- The Authorization-header check of `UserInfo`: empty header rejected, then
`strings.Split(authHeader, " ")` must yield exactly two parts with the first
literally `"Bearer"` (case-sensitive); otherwise `invalid_request`. -/
def userInfoExtractToken (authHeader : String) : TokenExtract :=
  if authHeader = "" then .err .invalidRequest
  else
    match strSplitOnChar authHeader ' ' with
    | [p, t] => if p = "Bearer" then .ok t else .err .invalidRequest
    | _ => .err .invalidRequest

/-- The Authorization-header check of `handleProxy` (`main.go`): empty header
rejected, then exactly two space-separated parts whose first lowercases to
`"bearer"`; on success the token (second part) is returned. -/
def proxyExtractBearer (authHeader : String) : Option String :=
  if authHeader = "" then none
  else
    match strSplitOnChar authHeader ' ' with
    | [p, t] => if strToLower p = "bearer" then some t else none
    | _ => none

/-- The upstream Authorization header the proxy director injects:
`req.Header.Set("Authorization", "Bearer "+accessToken)`. -/
def proxyUpstreamAuthHeader (accessToken : String) : String :=
  "Bearer " ++ accessToken

/-- JSON scalar values, enough for upstream token-response bodies decoded by
`json.Unmarshal` into `map[string]interface{}` (strings, numbers, booleans,
null; the token responses in the claims contain no nested values). -/
inductive JVal where
  | jstr (s : String)
  | jnum (n : Int)
  | jbool (b : Bool)
  | jnull
  deriving DecidableEq, Repr

/-- A decoded JSON object: key-value pairs of the Go map. -/
abbrev JObj := List (String × JVal)

/-- Insert a pair into a list sorted by key (ascending, as Go's
`json.Marshal` sorts map keys). -/
def insertByFst {α : Type} (x : String × α) :
    List (String × α) → List (String × α)
  | [] => [x]
  | y :: ys =>
    if compare x.1 y.1 = Ordering.gt then y :: insertByFst x ys
    else x :: y :: ys

/-- Sort key-value pairs by key, ascending. -/
def sortByFst {α : Type} : List (String × α) → List (String × α)
  | [] => []
  | x :: xs => insertByFst x (sortByFst xs)

/-- Serialize a JSON scalar as `json.Marshal` would (string escaping is not
modelled; the claims' values contain no characters needing escapes). -/
def jvalSerialize : JVal → String
  | .jstr s => "\"" ++ s ++ "\""
  | .jnum n => toString n
  | .jbool b => if b then "true" else "false"
  | .jnull => "null"

/-- Serialize a decoded object as `json.Marshal` does for a Go map: keys
sorted ascending. -/
def jserialize (o : JObj) : String :=
  "\x7b" ++ String.intercalate ","
    ((sortByFst o).map (fun kv => "\"" ++ kv.1 ++ "\":" ++ jvalSerialize kv.2))
    ++ "\x7d"

/-- The Go map assignment `tokenResponse["token_type"] = "Bearer"`: replace
the value stored under the key (used only when the key is present). -/
def setObjKey (o : JObj) (k : String) (v : JVal) : JObj :=
  o.map (fun kv => if kv.1 == k then (k, v) else kv)

/-- What `handleToken` relays downstream: HTTP status, body bytes, and — when
the body was rewritten — the recomputed `Content-Length`; `none` means the
upstream headers were copied through with no recomputation. -/
structure RelayedResponse where
  status : Nat
  body : String
  contentLength : Option Nat
  deriving DecidableEq, Repr

/-- `handleToken`'s post-processing of the upstream token response
(`main.go`).  `parsed` is the outcome of `json.Unmarshal(bodyBytes, &m)` and
`encode` the outcome of `json.Marshal` (both are `encoding/json` library
calls; the executable instantiation used in the theorems is
`fun o => some (jserialize o)`).  An error status (≥ 400) is relayed
byte-for-byte; a parse or re-encoding failure forwards the original body; a
parsed body has its `token_type`, when present, rewritten to `"Bearer"`, and
the `Content-Length` header is recomputed to the rewritten body's length. -/
def relayTokenResponse (status : Nat) (bodyBytes : String)
    (parsed : Option JObj) (encode : JObj → Option String) : RelayedResponse :=
  if 400 ≤ status then ⟨status, bodyBytes, none⟩
  else
    match parsed with
    | none => ⟨status, bodyBytes, none⟩
    | some obj =>
      let obj' :=
        if (obj.lookup "token_type").isSome
        then setObjKey obj "token_type" (.jstr "Bearer") else obj
      match encode obj' with
      | none => ⟨status, bodyBytes, none⟩
      | some mb => ⟨status, mb, some mb.length⟩

/-- The relay's in-process `stateStore` map, state string → downstream
redirect URI, with Go-map semantics. -/
abbrev StateStore := List (String × String)

/-- Go-map `delete(stateStore, state)`. -/
def storeErase (k : String) (m : StateStore) : StateStore :=
  m.filter (fun kv => kv.1 != k)

/-- Go-map assignment `stateStore[state] = uri` (overwrites). -/
def storePut (k v : String) (m : StateStore) : StateStore :=
  (k, v) :: storeErase k m

/-- Fixed relay OAuth2 configuration (`oauthConf`): upstream authorize URL,
this system's client id, its own registered redirect URL, and the scope
list. -/
structure RelayConf where
  authURL : String
  clientID : String
  redirectURL : String
  scopes : List String
  deriving DecidableEq, Repr

/-- Model of `oauthConf.AuthCodeURL(state, oauth2.AccessTypeOffline)`: the
upstream authorize URL carrying this system's client id and redirect URL,
`access_type=offline`, and the caller's state (percent-escaping is not
modelled; no claim depends on this URL's exact shape). -/
def authCodeURL (conf : RelayConf) (state : String) : String :=
  conf.authURL ++ "?access_type=offline&client_id=" ++ conf.clientID ++
    "&redirect_uri=" ++ conf.redirectURL ++ "&response_type=code&scope=" ++
    String.intercalate " " conf.scopes ++ "&state=" ++ state

/-- Outcome of a relay HTTP handler: a browser redirect or an `http.Error`. -/
inductive RelayHTTPResult where
  | redirect (url : String)
  | httpError (status : Nat) (msg : String)
  deriving DecidableEq, Repr

/-- `handleAuthorize` (`main.go`): requires `redirect_uri` and `state`,
stores state → downstream redirect URI in `stateStore`, and redirects the
browser to the upstream authorize URL. -/
def handleAuthorize (conf : RelayConf) (store : StateStore)
    (redirectURI state : String) : RelayHTTPResult × StateStore :=
  if redirectURI = "" ∨ state = "" then
    (.httpError 400 "Missing required parameters: redirect_uri and state",
     store)
  else
    (.redirect (authCodeURL conf state), storePut state redirectURI store)

/-- Parse a raw query string into key-value pairs (`url.Values`): split at
`&`, each pair at its first `=`; percent-unescaping is not modelled. -/
def parseQuery (q : String) : List (String × String) :=
  if q = "" then []
  else
    (strSplitOnChar q '&').map (fun kv =>
      match strSplitOnChar kv '=' with
      | [] => ("", "")
      | k :: rest => (k, String.intercalate "=" rest))

/-- Split a URL at its first `?` into the pre-query part and the raw query,
as `url.Parse` fills `RawQuery` (fragments are not modelled; `url.Parse`
failure cannot arise for the plain URLs in scope). -/
def urlSplit (u : String) : String × String :=
  match strSplitOnChar u '?' with
  | [] => (u, "")
  | b :: rest => (b, String.intercalate "?" rest)

/-- `url.Values.Set`: replace all bindings of the key with the single new
value. -/
def setQueryParam (ps : List (String × String)) (k v : String) :
    List (String × String) :=
  (k, v) :: ps.filter (fun kv => kv.1 != k)

/-- `url.Values.Encode`: keys sorted ascending, pairs joined `k=v` with `&`
(escaping not modelled). -/
def encodeQuery (ps : List (String × String)) : String :=
  String.intercalate "&" ((sortByFst ps).map (fun kv => kv.1 ++ "=" ++ kv.2))

/-- The redirect URL `handleCallback` builds: parse the stored downstream
redirect URI, `Set` the `code` and `state` query parameters, re-encode. -/
def callbackRedirectURL (r code state : String) : String :=
  let bq := urlSplit r
  let ps := setQueryParam (setQueryParam (parseQuery bq.2) "code" code)
    "state" state
  bq.1 ++ "?" ++ encodeQuery ps

/-- `handleCallback` (`main.go`): requires `code`; looks up the `stateStore`
entry for `state` (absent → `Invalid state`), deletes it (single-use), and
redirects downstream with `code` and `state` appended. -/
def handleCallback (store : StateStore) (code state : String) :
    RelayHTTPResult × StateStore :=
  if code = "" then (.httpError 400 "Code not found", store)
  else
    match store.lookup state with
    | none => (.httpError 400 "Invalid state", store)
    | some r =>
      (.redirect (callbackRedirectURL r code state), storeErase state store)

/-! ## Helper lemmas -/

theorem lookup_storePut_self (k v : String) (m : StateStore) :
    (storePut k v m).lookup k = some v := by
  simp [storePut, List.lookup]

theorem lookup_storeErase_self (k : String) (m : StateStore) :
    (storeErase k m).lookup k = none := by
  induction m with
  | nil => rfl
  | cons x xs ih =>
    by_cases hx : x.1 = k
    · simpa [storeErase, List.filter, hx] using ih
    · have hb : (x.1 != k) = true := by simp [hx]
      have hk : (k == x.1) = false := by
        simp [beq_eq_false_iff_ne]
        exact fun he => hx he.symm
      simpa [storeErase, List.filter, hb, List.lookup, hk] using ih

theorem find?_codeQuery_markUsedByCode_eq_none (l : List AuthCode)
    (code clientID redirectURI : String) (now' : Nat)
    (hnodup : (l.map AuthCode.code).Nodup) :
    (markUsedByCode code l).find? (codeQuery code clientID redirectURI now')
      = none := by
  induction l with
  | nil => rfl
  | cons r rs ih =>
    rw [List.map_cons, List.nodup_cons] at hnodup
    by_cases hr : r.code = code
    · have hb : (r.code == code) = true := beq_iff_eq.mpr hr
      rw [markUsedByCode, if_pos hb]
      rw [List.find?]
      have hq : codeQuery code clientID redirectURI now' { r with used := true }
          = false := by
        simp [codeQuery]
      rw [hq]
      rw [List.find?_eq_none]
      intro x hx hq
      have hxc : x.code = code := by
        simp only [codeQuery, Bool.and_eq_true, beq_iff_eq,
          decide_eq_true_eq] at hq
        exact hq.1.1.1.1
      have hmem : r.code ∈ rs.map AuthCode.code := by
        rw [hr, ← hxc]
        exact List.mem_map_of_mem AuthCode.code hx
      exact hnodup.1 hmem
    · have hb : (r.code == code) = false := by
        simp [beq_eq_false_iff_ne, hr]
      rw [markUsedByCode, if_neg (by simp [hb])]
      rw [List.find?]
      have hq : codeQuery code clientID redirectURI now' r = false := by
        simp [codeQuery, hr]
      rw [hq]
      exact ih hnodup.2

/-! ## Claims -/

/-- C9: a consent decision with `approved = false` yields the
`redirect_uri?error=access_denied&state=<state>` redirect target, leaves the
store untouched, and performs no store operation at all. -/
theorem consent_denial_no_write (s : ServerState) (now userID : Nat)
    (req : ConsentReq) (newCode : String)
    (hc : req.clientID ≠ "") (hr : req.redirectURI ≠ "")
    (hden : req.approved = false) :
    authorizeConsent s now userID req newCode =
      (.redirectURL
        (req.redirectURI ++ "?error=access_denied&state=" ++ req.state),
       s, []) := by
  simp [authorizeConsent, hc, hr, hden]

theorem consent_denial_no_write_witness :
    authorizeConsent ⟨[], [], [], []⟩ 50 7
        ⟨"app1", "https://a/cb", "read", "xyz", false⟩ "c1"
      = (.redirectURL "https://a/cb?error=access_denied&state=xyz",
         ⟨[], [], [], []⟩, []) :=
  (consent_denial_no_write ⟨[], [], [], []⟩ 50 7
    ⟨"app1", "https://a/cb", "read", "xyz", false⟩ "c1"
    (by decide) (by decide) rfl).trans (by decide)

/-- C7: consent approval persists the authorization code with expiry exactly
ten minutes (600 s) after minting, and any exchange at a time strictly past
that expiry — for a code minted at `t0`, any `now > t0 + 600` — returns
`invalid_grant` with no write, regardless of the code row being unused and
presented with the matching client and redirect URI. -/
theorem auth_code_ten_minute_expiry :
    (∀ (s : ServerState) (now userID : Nat) (req : ConsentReq)
        (newCode : String),
      req.clientID ≠ "" → req.redirectURI ≠ "" → req.approved = true →
      (authorizeConsent s now userID req newCode).2.1.authCodes =
        ⟨newCode, req.clientID, userID, req.redirectURI, req.scope,
         now + 600, false⟩ :: s.authCodes)
    ∧
    (∀ (s : ServerState) (now t0 : Nat)
        (code redirectURI clientID newAT newRT : String),
      (∀ r ∈ s.authCodes, r.code = code → r.expiresAt = t0 + 600) →
      t0 + 600 < now →
      handleAuthorizationCodeGrant s now code redirectURI clientID newAT newRT
        = (.error .invalidGrant, s, [.codeRead])) := by
  constructor
  · intro s now userID req newCode hc hr happ
    simp [authorizeConsent, hc, hr, happ]
  · intro s now t0 code redirectURI clientID newAT newRT hexp hage
    have hnone : lookupAuthCode s now code clientID redirectURI = none := by
      unfold lookupAuthCode
      rw [List.find?_eq_none]
      intro x hx
      simp only [codeQuery, Bool.and_eq_true, beq_iff_eq, decide_eq_true_eq,
        not_and]
      intro h1
      have := hexp x hx h1.1.1.1
      omega
    simp [handleAuthorizationCodeGrant, hnone]

theorem auth_code_ten_minute_expiry_witness :
    handleAuthorizationCodeGrant
        ⟨[], [⟨"c1", "app1", 7, "https://a/cb", "read", 700, false⟩], [], []⟩
        1500 "c1" "https://a/cb" "app1" "at" "rt"
      = (.error .invalidGrant,
         ⟨[], [⟨"c1", "app1", 7, "https://a/cb", "read", 700, false⟩], [], []⟩,
         [.codeRead]) :=
  auth_code_ten_minute_expiry.2
    ⟨[], [⟨"c1", "app1", 7, "https://a/cb", "read", 700, false⟩], [], []⟩
    1500 100 "c1" "https://a/cb" "app1" "at" "rt" (by decide) (by decide)

/-- C8: scope is propagated verbatim.  A successful authorization-code
exchange responds with exactly the matched code row's scope and stores that
same scope on both minted token rows; a successful refresh exchange responds
with exactly the matched refresh row's scope and stores it on the minted
access-token row. -/
theorem scope_propagated_verbatim :
    (∀ (s : ServerState) (now : Nat)
        (code redirectURI clientID newAT newRT : String) (a : AuthCode),
      lookupAuthCode s now code clientID redirectURI = some a →
      handleAuthorizationCodeGrant s now code redirectURI clientID newAT newRT
        = (.success ⟨newAT, "Bearer", 3600, some newRT, a.scope⟩,
           commitCodeExchange s now clientID a newAT newRT,
           [.codeRead, .codeWrite, .accessTokenWrite, .refreshTokenWrite]) ∧
      (commitCodeExchange s now clientID a newAT newRT).accessTokens.head?.map
          AccessTokenRec.scope = some a.scope ∧
      (commitCodeExchange s now clientID a newAT newRT).refreshTokens.head?.map
          RefreshTokenRec.scope = some a.scope)
    ∧
    (∀ (s : ServerState) (now : Nat) (token clientID newAT : String)
        (rt : RefreshTokenRec),
      lookupRefreshToken s now token clientID = some rt →
      (handleRefreshTokenGrant s now token clientID newAT).1
        = .success ⟨newAT, "Bearer", 3600, none, rt.scope⟩ ∧
      (handleRefreshTokenGrant s now token clientID newAT).2.1.accessTokens.head?.map
          AccessTokenRec.scope = some rt.scope) := by
  constructor
  · intro s now code redirectURI clientID newAT newRT a h
    refine ⟨by simp [handleAuthorizationCodeGrant, h], ?_, ?_⟩
    · simp [commitCodeExchange]
    · simp [commitCodeExchange]
  · intro s now token clientID newAT rt h
    exact ⟨by simp [handleRefreshTokenGrant, h],
           by simp [handleRefreshTokenGrant, h]⟩

theorem scope_propagated_verbatim_witness :
    (handleRefreshTokenGrant
        ⟨[], [], [], [⟨"r1", "app1", 7, "sell inv", 9000⟩]⟩ 100 "r1" "app1"
        "at9").1
      = .success ⟨"at9", "Bearer", 3600, none, "sell inv"⟩ :=
  (scope_propagated_verbatim.2
    ⟨[], [], [], [⟨"r1", "app1", 7, "sell inv", 9000⟩]⟩ 100 "r1" "app1" "at9"
    ⟨"r1", "app1", 7, "sell inv", 9000⟩ (by decide)).1

/-- C6: a successful refresh exchange leaves the refresh-token table
unchanged, responds with `token_type "Bearer"`, `expires_in 3600` and the
stored scope but no `refresh_token` field, and the same refresh token is
immediately usable again for another successful refresh. -/
theorem refresh_token_preserved (s : ServerState) (now : Nat)
    (token clientID newAT newAT2 : String) (rt : RefreshTokenRec)
    (h : lookupRefreshToken s now token clientID = some rt) :
    (handleRefreshTokenGrant s now token clientID newAT).1
      = .success ⟨newAT, "Bearer", 3600, none, rt.scope⟩ ∧
    (handleRefreshTokenGrant s now token clientID newAT).2.1.refreshTokens
      = s.refreshTokens ∧
    (handleRefreshTokenGrant
        (handleRefreshTokenGrant s now token clientID newAT).2.1
        now token clientID newAT2).1
      = .success ⟨newAT2, "Bearer", 3600, none, rt.scope⟩ := by
  have e1 : handleRefreshTokenGrant s now token clientID newAT
      = (.success ⟨newAT, "Bearer", 3600, none, rt.scope⟩,
         { s with accessTokens :=
            ⟨newAT, clientID, rt.userID, rt.scope, now + 3600⟩
              :: s.accessTokens },
         [.refreshTokenRead, .accessTokenWrite]) := by
    simp [handleRefreshTokenGrant, h]
  have h2 : lookupRefreshToken
      { s with accessTokens :=
          ⟨newAT, clientID, rt.userID, rt.scope, now + 3600⟩
            :: s.accessTokens }
      now token clientID = some rt := h
  refine ⟨?_, ?_, ?_⟩
  · rw [e1]
  · rw [e1]
  · rw [e1]
    simp [handleRefreshTokenGrant, h2]

theorem refresh_token_preserved_witness :
    (handleRefreshTokenGrant ⟨[], [], [], [⟨"r1", "app1", 7, "read", 9000⟩]⟩
        100 "r1" "app1" "atX").2.1.refreshTokens
      = [⟨"r1", "app1", 7, "read", 9000⟩] :=
  (refresh_token_preserved ⟨[], [], [], [⟨"r1", "app1", 7, "read", 9000⟩]⟩
    100 "r1" "app1" "atX" "atY" ⟨"r1", "app1", 7, "read", 9000⟩
    (by decide)).2.1.trans (by decide)

/-- C4: relay-token post-processing.  An upstream error response (status ≥
400) is relayed byte-for-byte with no `Content-Length` recomputation; for a
successful response a parse failure or a re-encoding failure degrades by
forwarding the original unmodified body; a successfully parsed body whose
`token_type` field is present is relayed with `token_type` rewritten to the
literal `"Bearer"` and `Content-Length` recomputed to the rewritten body's
length.  The final conjunct evaluates the spec's concrete example: the
upstream body parsed as `\x7b"access_token":"x","token_type":"User Access
Token","expires_in":7200\x7d` is relayed as the same JSON object with
`token_type` `"Bearer"` (keys re-marshalled in Go's sorted order) and a
recomputed length of 60. -/
theorem relay_token_type_normalization :
    (∀ (status : Nat) (body : String) (parsed : Option JObj)
        (encode : JObj → Option String),
      400 ≤ status →
      relayTokenResponse status body parsed encode = ⟨status, body, none⟩)
    ∧
    (∀ (status : Nat) (body : String) (encode : JObj → Option String),
      status < 400 →
      relayTokenResponse status body none encode = ⟨status, body, none⟩)
    ∧
    (∀ (status : Nat) (body : String) (obj : JObj)
        (encode : JObj → Option String),
      status < 400 →
      encode (if (obj.lookup "token_type").isSome
              then setObjKey obj "token_type" (.jstr "Bearer") else obj)
        = none →
      relayTokenResponse status body (some obj) encode
        = ⟨status, body, none⟩)
    ∧
    (∀ (status : Nat) (body : String) (obj : JObj),
      status < 400 → (obj.lookup "token_type").isSome →
      relayTokenResponse status body (some obj) (fun o => some (jserialize o))
        = ⟨status, jserialize (setObjKey obj "token_type" (.jstr "Bearer")),
           some (jserialize (setObjKey obj "token_type" (.jstr "Bearer"))).length⟩)
    ∧
    relayTokenResponse 200 "irrelevant"
        (some [("access_token", .jstr "x"),
               ("token_type", .jstr "User Access Token"),
               ("expires_in", .jnum 7200)])
        (fun o => some (jserialize o))
      = ⟨200,
         "\x7b\"access_token\":\"x\",\"expires_in\":7200,\"token_type\":\"Bearer\"\x7d",
         some 60⟩ := by
  refine ⟨?_, ?_, ?_, ?_, by decide⟩
  · intro status body parsed encode hge
    simp [relayTokenResponse, hge]
  · intro status body encode hlt
    simp [relayTokenResponse, Nat.not_le.mpr hlt]
  · intro status body obj encode hlt henc
    simp [relayTokenResponse, Nat.not_le.mpr hlt, henc]
  · intro status body obj hlt htt
    simp [relayTokenResponse, Nat.not_le.mpr hlt, htt]

theorem relay_token_type_normalization_witness :
    relayTokenResponse 503 "\x7b\"error\":\"temporarily_unavailable\"\x7d"
        (some [("error", .jstr "temporarily_unavailable")])
        (fun o => some (jserialize o))
      = ⟨503, "\x7b\"error\":\"temporarily_unavailable\"\x7d", none⟩ :=
  relay_token_type_normalization.1 503
    "\x7b\"error\":\"temporarily_unavailable\"\x7d"
    (some [("error", .jstr "temporarily_unavailable")])
    (fun o => some (jserialize o)) (by decide)

/-- C10: the relay proxy accepts the bearer scheme case-insensitively — any
Authorization header splitting into exactly two space-separated parts whose
first part lowercases to `"bearer"` is accepted, and the second part is
forwarded upstream as `"Bearer <token>"` — while the provider's UserInfo
endpoint rejects every scheme spelling other than the exact string
`"Bearer"` with `invalid_request`. -/
theorem bearer_scheme_case_handling (h p t : String)
    (hsplit : strSplitOnChar h ' ' = [p, t]) :
    (strToLower p = "bearer" →
      proxyExtractBearer h = some t ∧
      proxyUpstreamAuthHeader t = "Bearer " ++ t)
    ∧ (p ≠ "Bearer" → userInfoExtractToken h = .err .invalidRequest) := by
  have hne : h ≠ "" := by
    intro he
    subst he
    have hh : strSplitOnChar "" ' ' = [""] := rfl
    rw [hh] at hsplit
    simp at hsplit
  constructor
  · intro hlow
    unfold proxyExtractBearer
    rw [if_neg hne, hsplit]
    exact ⟨by simp [hlow], rfl⟩
  · intro hp
    unfold userInfoExtractToken
    rw [if_neg hne, hsplit]
    simp [hp]

theorem bearer_scheme_case_handling_witness :
    proxyExtractBearer "BEARER tok123" = some "tok123" ∧
    userInfoExtractToken "BEARER tok123" = .err .invalidRequest :=
  ⟨((bearer_scheme_case_handling "BEARER tok123" "BEARER" "tok123"
      (by decide)).1 (by decide)).1,
   (bearer_scheme_case_handling "BEARER tok123" "BEARER" "tok123"
      (by decide)).2 (by decide)⟩

/-- C2 (code bug): the exchange is not one atomic conditional update — in the
code it is a gorm `First` (the read, `lookupAuthCode`) followed by an
unconditional `Update`/`Create` write phase (`commitCodeExchange`), and
`handleAuthorizationCodeGrant` is literally their composition.  In the
interleaving where both concurrent requests run their read before either
write, both reads hit the same unused code row, so both requests take the
success branch and the final store holds two live access tokens and two
live refresh tokens minted from the single code — contradicting "at most one
can succeed". -/
theorem concurrent_code_exchange_both_mint :
    lookupAuthCode
        ⟨[⟨"app1", "secret1", "App One", ["https://a/cb"]⟩],
         [⟨"c1", "app1", 7, "https://a/cb", "read", 700, false⟩], [], []⟩
        100 "c1" "app1" "https://a/cb"
      = some ⟨"c1", "app1", 7, "https://a/cb", "read", 700, false⟩ ∧
    (commitCodeExchange
        (commitCodeExchange
          ⟨[⟨"app1", "secret1", "App One", ["https://a/cb"]⟩],
           [⟨"c1", "app1", 7, "https://a/cb", "read", 700, false⟩], [], []⟩
          100 "app1" ⟨"c1", "app1", 7, "https://a/cb", "read", 700, false⟩
          "atA" "rtA")
        100 "app1" ⟨"c1", "app1", 7, "https://a/cb", "read", 700, false⟩
        "atB" "rtB").accessTokens.length = 2 ∧
    (commitCodeExchange
        (commitCodeExchange
          ⟨[⟨"app1", "secret1", "App One", ["https://a/cb"]⟩],
           [⟨"c1", "app1", 7, "https://a/cb", "read", 700, false⟩], [], []⟩
          100 "app1" ⟨"c1", "app1", 7, "https://a/cb", "read", 700, false⟩
          "atA" "rtA")
        100 "app1" ⟨"c1", "app1", 7, "https://a/cb", "read", 700, false⟩
        "atB" "rtB").refreshTokens.length = 2 := by
  decide

/-- C3 (counterexample): a token request with `grant_type=authorization_code`
and no `code` — and likewise one with `grant_type=refresh_token` and no
`refresh_token` — presented by a correctly authenticated client, is not
rejected with `invalid_request` before store access: the endpoint reads the
client row and the grant's table and fails with `invalid_grant`. -/
theorem missing_code_reaches_store_as_invalid_grant :
    tokenEndpoint
        ⟨[⟨"app1", "secret1", "App One", ["https://a/cb"]⟩], [], [], []⟩ 100
        ⟨"authorization_code", "", "https://a/cb", "app1", "secret1", ""⟩
        "at" "rt"
      = (.error .invalidGrant,
         ⟨[⟨"app1", "secret1", "App One", ["https://a/cb"]⟩], [], [], []⟩,
         [.clientRead, .codeRead]) ∧
    tokenEndpoint
        ⟨[⟨"app1", "secret1", "App One", ["https://a/cb"]⟩], [], [], []⟩ 100
        ⟨"refresh_token", "", "", "app1", "secret1", ""⟩ "at" "rt"
      = (.error .invalidGrant,
         ⟨[⟨"app1", "secret1", "App One", ["https://a/cb"]⟩], [], [], []⟩,
         [.clientRead, .refreshTokenRead]) ∧
    TokenResult.error .invalidGrant ≠ .error .invalidRequest ∧
    ([StoreOp.clientRead, StoreOp.codeRead] : List StoreOp) ≠ [] ∧
    ([StoreOp.clientRead, StoreOp.refreshTokenRead] : List StoreOp) ≠ [] := by
  decide

/-- C3 (amended): a missing `grant_type`, `client_id` or `client_secret`
fails with `invalid_request` before any store access; with those three
present, client authentication (id plus exact-match secret) fails closed
with `invalid_client` after only the client read and before any
grant-specific logic; a missing `code` under `grant_type=authorization_code`
and a missing `refresh_token` under `grant_type=refresh_token` are not
caught by request validation but by the grant lookup, which fails with
`invalid_grant` after client authentication (no stored code or refresh
token equals the empty string: both are 32 random url-safe bytes). -/
theorem token_endpoint_validation_order :
    (∀ (s : ServerState) (now : Nat) (req : TokenReq) (newAT newRT : String),
      (req.grantType = "" ∨ req.clientID = "" ∨ req.clientSecret = "") →
      tokenEndpoint s now req newAT newRT = (.error .invalidRequest, s, []))
    ∧
    (∀ (s : ServerState) (now : Nat) (req : TokenReq) (newAT newRT : String),
      req.grantType ≠ "" → req.clientID ≠ "" → req.clientSecret ≠ "" →
      findClient s req.clientID req.clientSecret = none →
      tokenEndpoint s now req newAT newRT
        = (.error .invalidClient, s, [.clientRead]))
    ∧
    (∀ (s : ServerState) (now : Nat) (req : TokenReq) (newAT newRT : String)
        (cl : OAuthClient),
      req.grantType = "authorization_code" → req.code = "" →
      findClient s req.clientID req.clientSecret = some cl →
      req.clientID ≠ "" → req.clientSecret ≠ "" →
      (∀ r ∈ s.authCodes, r.code ≠ "") →
      tokenEndpoint s now req newAT newRT
        = (.error .invalidGrant, s, [.clientRead, .codeRead]))
    ∧
    (∀ (s : ServerState) (now : Nat) (req : TokenReq) (newAT newRT : String)
        (cl : OAuthClient),
      req.grantType = "refresh_token" → req.refreshToken = "" →
      findClient s req.clientID req.clientSecret = some cl →
      req.clientID ≠ "" → req.clientSecret ≠ "" →
      (∀ r ∈ s.refreshTokens, r.token ≠ "") →
      tokenEndpoint s now req newAT newRT
        = (.error .invalidGrant, s, [.clientRead, .refreshTokenRead])) := by
  refine ⟨?_, ?_, ?_, ?_⟩
  · intro s now req newAT newRT hmiss
    simp [tokenEndpoint, hmiss]
  · intro s now req newAT newRT h1 h2 h3 hcl
    simp [tokenEndpoint, h1, h2, h3, hcl]
  · intro s now req newAT newRT cl hgt hcode hcl h2 h3 hno
    have hnone : lookupAuthCode s now "" req.clientID req.redirectURI
        = none := by
      unfold lookupAuthCode
      rw [List.find?_eq_none]
      intro x hx hq
      have : x.code = "" := by
        simp only [codeQuery, Bool.and_eq_true, beq_iff_eq,
          decide_eq_true_eq] at hq
        exact hq.1.1.1.1
      exact hno x hx this
    simp [tokenEndpoint, hgt, h2, h3, hcl, handleAuthorizationCodeGrant,
      hcode, hnone]
  · intro s now req newAT newRT cl hgt hrt hcl h2 h3 hno
    have hnone : lookupRefreshToken s now "" req.clientID = none := by
      unfold lookupRefreshToken
      rw [List.find?_eq_none]
      intro x hx hq
      have : x.token = "" := by
        simp only [refreshQuery, Bool.and_eq_true, beq_iff_eq,
          decide_eq_true_eq] at hq
        exact hq.1.1
      exact hno x hx this
    simp [tokenEndpoint, hgt, h2, h3, hcl, handleRefreshTokenGrant,
      hrt, hnone]

theorem token_endpoint_validation_order_witness :
    tokenEndpoint ⟨[], [], [], []⟩ 0 ⟨"", "", "", "app1", "secret1", ""⟩
        "at" "rt"
      = (.error .invalidRequest, ⟨[], [], [], []⟩, []) :=
  token_endpoint_validation_order.1 ⟨[], [], [], []⟩ 0
    ⟨"", "", "", "app1", "secret1", ""⟩ "at" "rt" (Or.inl rfl)

/-- C5: relay-state round trip and replay protection.  For non-empty
downstream redirect URI `r` and state `s`, relay-authorize stores the
pending entry and redirects upstream; a relay-callback with a non-empty code
`c` and the same state redirects downstream to `r` with `code` and `state`
set as query parameters and removes the pending entry, so a second callback
with the same state fails with `Invalid state`. -/
theorem relay_state_round_trip (conf : RelayConf) (store : StateStore)
    (r s c : String) (hr : r ≠ "") (hs : s ≠ "") (hc : c ≠ "") :
    handleAuthorize conf store r s
      = (.redirect (authCodeURL conf s), storePut s r store) ∧
    handleCallback (storePut s r store) c s
      = (.redirect (callbackRedirectURL r c s),
         storeErase s (storePut s r store)) ∧
    (storeErase s (storePut s r store)).lookup s = none ∧
    handleCallback (storeErase s (storePut s r store)) c s
      = (.httpError 400 "Invalid state", storeErase s (storePut s r store)) := by
  refine ⟨?_, ?_, lookup_storeErase_self s (storePut s r store), ?_⟩
  · simp [handleAuthorize, hr, hs]
  · unfold handleCallback
    rw [if_neg hc, lookup_storePut_self]
  · unfold handleCallback
    rw [if_neg hc, lookup_storeErase_self]

theorem relay_state_round_trip_witness :
    handleCallback (storePut "xyz" "https://rp/cb" []) "abc" "xyz"
      = (.redirect (callbackRedirectURL "https://rp/cb" "abc" "xyz"),
         storeErase "xyz" (storePut "xyz" "https://rp/cb" [])) ∧
    callbackRedirectURL "https://rp/cb" "abc" "xyz"
      = "https://rp/cb?code=abc&state=xyz" ∧
    handleCallback (storeErase "xyz" (storePut "xyz" "https://rp/cb" []))
        "abc" "xyz"
      = (.httpError 400 "Invalid state",
         storeErase "xyz" (storePut "xyz" "https://rp/cb" [])) :=
  ⟨(relay_state_round_trip ⟨"https://auth.example", "cid", "https://me/cb",
      ["scopeA"]⟩ [] "https://rp/cb" "xyz" "abc"
      (by decide) (by decide) (by decide)).2.1,
   by decide,
   (relay_state_round_trip ⟨"https://auth.example", "cid", "https://me/cb",
      ["scopeA"]⟩ [] "https://rp/cb" "xyz" "abc"
      (by decide) (by decide) (by decide)).2.2.2⟩

/-- C1: authorization codes are single-use.  Given the store's unique index
on `code` (the rows' codes are pairwise distinct), if an authorization-code
exchange succeeds, then a second exchange of the same code with the same
client id and redirect URI — at any later time and with any fresh token
material — returns `invalid_grant`, leaves the store exactly as the first
exchange left it, and performs no write (mints no tokens). -/
theorem authorization_code_single_use (s : ServerState) (now now' : Nat)
    (code redirectURI clientID at1 rt1 at2 rt2 : String)
    (b : TokenSuccessBody)
    (hnodup : (s.authCodes.map AuthCode.code).Nodup)
    (h1 : (handleAuthorizationCodeGrant s now code redirectURI clientID
        at1 rt1).1 = .success b) :
    handleAuthorizationCodeGrant
        (handleAuthorizationCodeGrant s now code redirectURI clientID
          at1 rt1).2.1
        now' code redirectURI clientID at2 rt2
      = (.error .invalidGrant,
         (handleAuthorizationCodeGrant s now code redirectURI clientID
           at1 rt1).2.1,
         [.codeRead]) := by
  cases hl : lookupAuthCode s now code clientID redirectURI with
  | none =>
    rw [handleAuthorizationCodeGrant, hl] at h1
    exact absurd h1 (by simp)
  | some a =>
    have hcode : a.code = code := by
      have hq := List.find?_some hl
      simp only [codeQuery, Bool.and_eq_true, beq_iff_eq,
        decide_eq_true_eq] at hq
      exact hq.1.1.1.1
    have hstate : (handleAuthorizationCodeGrant s now code redirectURI
        clientID at1 rt1).2.1 = commitCodeExchange s now clientID a at1 rt1 := by
      rw [handleAuthorizationCodeGrant, hl]
    rw [hstate]
    have hnone : lookupAuthCode (commitCodeExchange s now clientID a at1 rt1)
        now' code clientID redirectURI = none := by
      unfold lookupAuthCode commitCodeExchange
      rw [hcode]
      exact find?_codeQuery_markUsedByCode_eq_none s.authCodes code clientID
        redirectURI now' hnodup
    rw [handleAuthorizationCodeGrant, hnone]

theorem authorization_code_single_use_witness :
    handleAuthorizationCodeGrant
        (handleAuthorizationCodeGrant
          ⟨[], [⟨"c1", "app1", 7, "https://a/cb", "read", 700, false⟩],
           [], []⟩ 100 "c1" "https://a/cb" "app1" "at1" "rt1").2.1
        100 "c1" "https://a/cb" "app1" "at2" "rt2"
      = (.error .invalidGrant,
         (handleAuthorizationCodeGrant
           ⟨[], [⟨"c1", "app1", 7, "https://a/cb", "read", 700, false⟩],
            [], []⟩ 100 "c1" "https://a/cb" "app1" "at1" "rt1").2.1,
         [.codeRead]) :=
  authorization_code_single_use
    ⟨[], [⟨"c1", "app1", 7, "https://a/cb", "read", 700, false⟩], [], []⟩
    100 100 "c1" "https://a/cb" "app1" "at1" "rt1" "at2" "rt2"
    ⟨"at1", "Bearer", 3600, some "rt1", "read"⟩ (by decide) (by decide)
